import Mathlib

/-!
Verification of the medical-assistant front-end (a Next.js/React client).

The embedding models the text-processing and state-transition logic of the
client: JS strings are modelled as `List Char` (`Str`), JS string methods
(`trim`, `toLowerCase`, `includes`, `split('\n')`, the two regexes used by
the prediction parser) are given as executable Lean functions, and each
event handler (`handleSubmit`, `handleChat`, `handleSearch`, the
patient-selection effect, the `patientService` calls) becomes a pure state
transformer parametrised by the outcome of its single `fetch`.
-/

namespace MedAssist

/-! ### Text primitives (JS string operations on `List Char`) -/

/-- JS strings, modelled as lists of characters. -/
abbrev Str := List Char

/-- Character data of a Lean string literal, used to write `Str` constants. -/
def str (s : String) : Str := s.data

/-- `s.trim()`: remove whitespace from both ends. -/
def jsTrim (cs : Str) : Str :=
  (((cs.dropWhile fun c => c.isWhitespace).reverse.dropWhile fun c => c.isWhitespace)).reverse

/-- ASCII branch of JS `toLowerCase` on one character:
uppercase ASCII letters are shifted by 32, all else unchanged. -/
def lowerChar (c : Char) : Char :=
  if 65 ≤ c.toNat ∧ c.toNat ≤ 90 then Char.ofNat (c.toNat + 32) else c

/-- `s.toLowerCase()` (ASCII model). -/
def jsToLower (cs : Str) : Str := cs.map lowerChar

/-- `hay.includes(needle)`: substring containment. -/
def listIncludes (needle : Str) : Str → Bool
  | [] => needle.isEmpty
  | c :: t => needle.isPrefixOf (c :: t) || listIncludes needle t

/-- `text.split('\n')`. -/
def splitLines : Str → List Str
  | [] => [[]]
  | c :: cs =>
    if c = '\n' then [] :: splitLines cs
    else
      match splitLines cs with
      | l :: ls => (c :: l) :: ls
      | [] => [[c]]

/-- Decimal rendering of a `Nat`, for JS template interpolation of numbers. -/
def natStr (n : Nat) : Str := (toString n).data

/-- An uppercase ASCII letter (the casing the parser is claimed to erase). -/
def isUpperChar (c : Char) : Bool :=
  decide (65 ≤ c.toNat) && decide (c.toNat ≤ 90)

/-- No character of the string is an uppercase ASCII letter. -/
def noUpper (cs : Str) : Bool := cs.all fun c => !(isUpperChar c)

/-! ### Basic lemmas about the text primitives -/

theorem listIncludes_iff (needle : Str) : ∀ hay : Str,
    listIncludes needle hay = true ↔ needle <:+: hay := by
  intro hay
  induction hay with
  | nil =>
    simp only [listIncludes, List.isEmpty_iff]
    constructor
    · rintro rfl; exact List.infix_rfl
    · intro h; exact List.eq_nil_of_infix_nil h
  | cons c t ih =>
    simp only [listIncludes, Bool.or_eq_true, List.isPrefixOf_iff_prefix, ih]
    constructor
    · rintro (h | h)
      · exact h.isInfix
      · exact h.trans (List.suffix_cons c t).isInfix
    · intro h
      rcases (List.infix_cons_iff).mp h with h | h
      · exact Or.inl h
      · exact Or.inr h

theorem mem_jsTrim {a : Char} {cs : Str} (h : a ∈ jsTrim cs) : a ∈ cs := by
  unfold jsTrim at h
  rw [List.mem_reverse] at h
  have h2 := (List.dropWhile_sublist _).subset h
  rw [List.mem_reverse] at h2
  exact (List.dropWhile_sublist _).subset h2

theorem lowerChar_not_upper (c : Char) : isUpperChar (lowerChar c) = false := by
  unfold lowerChar
  split
  · next h =>
    obtain ⟨h1, h2⟩ := h
    rw [show c.toNat + 32 = c.toNat + 32 from rfl]
    generalize hn : c.toNat = n at h1 h2 ⊢
    interval_cases n <;> decide
  · next h =>
    simp only [isUpperChar, Bool.and_eq_false_iff, decide_eq_false_iff_not]
    omega

theorem noUpper_jsToLower (cs : Str) {a : Char} (h : a ∈ jsToLower cs) :
    isUpperChar a = false := by
  unfold jsToLower at h
  rw [List.mem_map] at h
  obtain ⟨b, _, rfl⟩ := h
  exact lowerChar_not_upper b

/-! ### The disease-prediction text parser (`formatPredictionSection`, first variant,
`components/ChatAssistant.tsx`)

The parser walks the lines of the free-text prediction.  A line whose
trimmed lowercased form contains one of four substrings selects the current
section; any other non-empty line is cleaned of a list marker (the JS regex
`^[-•*]|\d+[\.)]\s*`: either a single leading `-`, `•` or `*`, or the first
run of digits followed by `.` or `)` and trailing whitespace, wherever it
occurs) and pushed into the current section's bucket unless the cleaned
line is empty or matches `^[.:,\s]+$`. -/

/-- The four buckets produced by the first-variant parser. -/
structure PredictionSections where
  diagnoses : List Str
  likelihoods : List Str
  supportingFactors : List Str
  recommendations : List Str
deriving DecidableEq

/-- Names of the four buckets (the values of the `currentSection` variable). -/
inductive SectionKind where
  | diagnoses
  | likelihoods
  | supportingFactors
  | recommendations
deriving DecidableEq

/-- `sections[currentSection].push(cleanedLine)`. -/
def SectionKind.push : SectionKind → Str → PredictionSections → PredictionSections
  | .diagnoses, e, s => { s with diagnoses := s.diagnoses ++ [e] }
  | .likelihoods, e, s => { s with likelihoods := s.likelihoods ++ [e] }
  | .supportingFactors, e, s => { s with supportingFactors := s.supportingFactors ++ [e] }
  | .recommendations, e, s => { s with recommendations := s.recommendations ++ [e] }

/-- Read one bucket out of the record. -/
def getBucket : SectionKind → PredictionSections → List Str
  | .diagnoses, s => s.diagnoses
  | .likelihoods, s => s.likelihoods
  | .supportingFactors, s => s.supportingFactors
  | .recommendations, s => s.recommendations

/-- The header classifier: the `if / else if` chain of `includes` tests on
the trimmed lowercased line. -/
def headerKind? (t : Str) : Option SectionKind :=
  if listIncludes (str "diagnos") t then some .diagnoses
  else if listIncludes (str "likelihood") t then some .likelihoods
  else if listIncludes (str "supporting factor") t then some .supportingFactors
  else if listIncludes (str "recommend") t then some .recommendations
  else none

/-- One of `-`, `•`, `*` (the single-character alternative of the list-marker regex,
anchored at the start of the line). -/
def isMarkerChar (c : Char) : Bool := c = '-' || c = '•' || c = '*'

/-- Match of `\d+[\.)]\s*` at the head of `cs`: a maximal digit run followed by
`.` or `)`, then greedy whitespace; returns the remainder after the match. -/
def numMarkAt? (cs : Str) : Option Str :=
  if (cs.takeWhile Char.isDigit).isEmpty then none
  else
    match cs.dropWhile Char.isDigit with
    | c :: rs => if c = '.' || c = ')' then some (rs.dropWhile fun x => x.isWhitespace) else none
    | [] => none

/-- Remove the first (leftmost) match of `\d+[\.)]\s*`, leaving the string
unchanged when there is none (JS `replace` with the second regex alternative). -/
def stripNumMark : Str → Str
  | [] => []
  | c :: cs =>
    match numMarkAt? (c :: cs) with
    | some rest => rest
    | none => c :: stripNumMark cs

/-- `\d+[\.)]\s*` matches somewhere in the string. -/
def hasNumMark : Str → Bool
  | [] => false
  | c :: cs => (numMarkAt? (c :: cs)).isSome || hasNumMark cs

/-- The JS test `/^[-•*]|\d+[\.)]\s*/.test(trimmedLine)`. -/
def isListItem (t : Str) : Bool :=
  (match t with
   | c :: _ => isMarkerChar c
   | [] => false) || hasNumMark t

/-- `trimmedLine.replace(/^[-•*]|\d+[\.)]\s*/, '')`: the `^[-•*]` alternative wins
at position 0, otherwise the first `\d+[\.)]\s*` match is removed. -/
def replaceMark : Str → Str
  | [] => []
  | c :: rest => if isMarkerChar c then rest else stripNumMark (c :: rest)

/-- `cleanedLine`: marker-stripped and re-trimmed when the line tests as a
list item, the line itself otherwise. -/
def cleanEntry (t : Str) : Str :=
  if isListItem t then jsTrim (replaceMark t) else t

/-- The filter regex `^[.:,\s]+$`: only dots, colons, commas and whitespace. -/
def punctOnly (cs : Str) : Bool :=
  cs.all fun c => c = '.' || c = ':' || c = ',' || c.isWhitespace

/-- The value pushed for a (trimmed lowercased) content line, `none` when the
parser silently drops it (`if (cleanedLine && !cleanedLine.match(/^[.:,\s]+$/))`). -/
def entry? (t : Str) : Option Str :=
  if (cleanEntry t).isEmpty || punctOnly (cleanEntry t) then none else some (cleanEntry t)

/-- The body of `lines.forEach(...)`: one line updates the accumulated
sections and the `currentSection` register. -/
def processLine (st : PredictionSections × Option SectionKind) (line : Str) :
    PredictionSections × Option SectionKind :=
  match headerKind? (jsToLower (jsTrim line)) with
  | some k => (st.1, some k)
  | none =>
    if (jsToLower (jsTrim line)).isEmpty then st
    else
      match st.2 with
      | none => st
      | some k =>
        match entry? (jsToLower (jsTrim line)) with
        | some e => (k.push e st.1, st.2)
        | none => st

/-- `formatPredictionSection` (first variant): fold the line processor over
`text.split('\n')` starting from empty buckets and no current section. -/
def formatPredictionSection (text : Str) : PredictionSections :=
  ((splitLines text).foldl processLine (⟨[], [], [], []⟩, none)).1

/-! ### Declarative description of the parser, used to state the claims -/

/-- The header selected by a raw line, if any. -/
def lineHeader? (line : Str) : Option SectionKind :=
  headerKind? (jsToLower (jsTrim line))

/-- The most recently seen header after reading one more line. -/
def stepHeader (cur : Option SectionKind) (line : Str) : Option SectionKind :=
  match lineHeader? line with
  | some k => some k
  | none => cur

/-- The most recently seen header after reading a list of lines, starting
from `cur`. -/
def lastHeaderFrom (cur : Option SectionKind) : List Str → Option SectionKind
  | [] => cur
  | l :: ls => lastHeaderFrom (stepHeader cur l) ls

/-- The bucket entry contributed by a raw line: `none` for header lines,
for lines that trim to nothing, and for lines the cleaning filter drops. -/
def contentEntry? (line : Str) : Option Str :=
  match lineHeader? line with
  | some _ => none
  | none =>
    if (jsToLower (jsTrim line)).isEmpty then none
    else entry? (jsToLower (jsTrim line))

/-- Declarative bucket contents: pair every line with the list of lines
preceding it (`lines.inits.zip lines`); a line contributes its cleaned entry
to bucket `k` exactly when the most recently seen header before it is `k`. -/
def specBucket (cur : Option SectionKind) (k : SectionKind) (lines : List Str) : List Str :=
  (lines.inits.zip lines).filterMap fun pl =>
    match lastHeaderFrom cur pl.1, contentEntry? pl.2 with
    | some h, some e => if h = k then some e else none
    | _, _ => none

/-- Recursive form of `specBucket`, the induction workhorse. -/
def specAux (cur : Option SectionKind) (k : SectionKind) : List Str → List Str
  | [] => []
  | l :: ls =>
    (match cur, contentEntry? l with
     | some c, some e => if c = k then [e] else []
     | _, _ => []) ++ specAux (stepHeader cur l) k ls

theorem getBucket_push (k k' : SectionKind) (e : Str) (s : PredictionSections) :
    getBucket k (SectionKind.push k' e s) =
      if k' = k then getBucket k s ++ [e] else getBucket k s := by
  cases k <;> cases k' <;> simp [getBucket, SectionKind.push]

theorem processLine_eq (acc : PredictionSections) (cur : Option SectionKind) (l : Str) :
    processLine (acc, cur) l =
      ((match cur, contentEntry? l with
        | some c, some e => SectionKind.push c e acc
        | _, _ => acc),
       stepHeader cur l) := by
  unfold processLine contentEntry? stepHeader lineHeader?
  cases hh : headerKind? (jsToLower (jsTrim l)) with
  | some k => cases cur <;> simp
  | none =>
    by_cases ht : (jsToLower (jsTrim l)).isEmpty
    · cases cur <;> simp [ht]
    · cases cur with
      | none => simp [ht]
      | some k =>
        cases he : entry? (jsToLower (jsTrim l)) <;> simp [ht, he]

theorem foldl_buckets (lines : List Str) :
    ∀ (acc : PredictionSections) (cur : Option SectionKind) (k : SectionKind),
      getBucket k ((lines.foldl processLine (acc, cur)).1) =
        getBucket k acc ++ specAux cur k lines := by
  induction lines with
  | nil => intro acc cur k; simp [specAux]
  | cons l ls ih =>
    intro acc cur k
    rw [List.foldl_cons, processLine_eq, ih]
    cases hc : cur with
    | none => simp [specAux, hc]
    | some c =>
      cases he : contentEntry? l with
      | none => simp [specAux, he]
      | some e =>
        simp only [specAux, he, getBucket_push]
        by_cases hk : c = k
        · simp [hk]
        · simp [hk]

theorem specAux_eq_specBucket (lines : List Str) :
    ∀ (cur : Option SectionKind) (k : SectionKind),
      specAux cur k lines = specBucket cur k lines := by
  induction lines with
  | nil => intro cur k; simp [specAux, specBucket]
  | cons l ls ih =>
    intro cur k
    simp only [specBucket, List.inits_cons, List.zip_cons_cons, List.filterMap_cons,
      List.zip_map_left, List.filterMap_map]
    have hhead : lastHeaderFrom cur [] = cur := rfl
    rw [hhead]
    have htail :
        (List.filterMap
          ((fun pl =>
            match lastHeaderFrom cur pl.1, contentEntry? pl.2 with
            | some h, some e => if h = k then some e else none
            | _, _ => none) ∘ Prod.map (fun t => l :: t) id)
          (ls.inits.zip ls)) = specBucket (stepHeader cur l) k ls := by
      unfold specBucket
      apply List.filterMap_congr
      intro pl _
      have : lastHeaderFrom cur (l :: pl.1) = lastHeaderFrom (stepHeader cur l) pl.1 := rfl
      simp [Function.comp, Prod.map, this]
    rw [htail]
    cases hc : cur with
    | none => simp [specAux, hc, ih]
    | some c =>
      cases he : contentEntry? l with
      | none => simp [specAux, he, ih]
      | some e =>
        simp only [specAux, he, ih]
        by_cases hk : c = k
        · simp [hk]
        · simp [hk]

/-- Bucket contents of the fold, in fully declarative form. -/
theorem formatPrediction_buckets (text : Str) (k : SectionKind) :
    getBucket k (formatPredictionSection text) = specBucket none k (splitLines text) := by
  unfold formatPredictionSection
  rw [foldl_buckets, specAux_eq_specBucket]
  cases k <;> rfl

/-! ### Membership lemmas: every bucket entry is built from some input line -/

theorem mem_numMarkAt {cs r : Str} {a : Char}
    (h : numMarkAt? cs = some r) (ha : a ∈ r) : a ∈ cs := by
  unfold numMarkAt? at h
  split at h
  · exact absurd h (by simp)
  · split at h
    · next c rs heq =>
      split at h
      · injection h with h
        subst h
        have h1 : a ∈ rs := (List.dropWhile_sublist _).subset ha
        have h2 : a ∈ c :: rs := List.mem_cons_of_mem _ h1
        rw [← heq] at h2
        exact (List.dropWhile_sublist _).subset h2
      · exact absurd h (by simp)
    · exact absurd h (by simp)

theorem mem_stripNumMark {a : Char} : ∀ {cs : Str}, a ∈ stripNumMark cs → a ∈ cs := by
  intro cs
  induction cs with
  | nil => intro h; exact absurd h (by simp [stripNumMark])
  | cons c t ih =>
    intro h
    unfold stripNumMark at h
    split at h
    · next heq => exact mem_numMarkAt heq h
    · rcases List.mem_cons.mp h with h | h
      · simp [h]
      · exact List.mem_cons_of_mem _ (ih h)

theorem mem_replaceMark {a : Char} {t : Str} (h : a ∈ replaceMark t) : a ∈ t := by
  cases t with
  | nil => exact absurd h (by simp [replaceMark])
  | cons c rest =>
    simp only [replaceMark] at h
    by_cases hm : isMarkerChar c = true
    · rw [if_pos hm] at h
      exact List.mem_cons_of_mem _ h
    · rw [if_neg hm] at h
      exact mem_stripNumMark h

theorem mem_cleanEntry {a : Char} {t : Str} (h : a ∈ cleanEntry t) : a ∈ t := by
  unfold cleanEntry at h
  split at h
  · exact mem_replaceMark (mem_jsTrim h)
  · exact h

theorem entry?_eq_some {t e : Str} (h : entry? t = some e) : e = cleanEntry t := by
  unfold entry? at h
  split at h
  · exact absurd h (by simp)
  · injection h with h
    exact h.symm

/-- Every bucket entry arises as `contentEntry?` of some input line. -/
theorem bucket_entry_of_line {text : Str} {k : SectionKind} {e : Str}
    (he : e ∈ getBucket k (formatPredictionSection text)) :
    ∃ l ∈ splitLines text, contentEntry? l = some e := by
  rw [formatPrediction_buckets] at he
  unfold specBucket at he
  rw [List.mem_filterMap] at he
  obtain ⟨pl, hmem, hval⟩ := he
  refine ⟨pl.2, (List.of_mem_zip hmem).2, ?_⟩
  revert hval
  cases lastHeaderFrom none pl.1 with
  | none => intro hval; exact absurd hval (by simp)
  | some h =>
    cases hc : contentEntry? pl.2 with
    | none => intro hval; exact absurd hval (by simp)
    | some e' =>
      intro hval
      by_cases hk : h = k
      · simp only [hk, if_pos rfl] at hval
        injection hval with hval
        rw [hval]
      · simp [hk] at hval

/-! ### Data model (`types/patient.ts`, `app/page.tsx`) -/

/-- A patient record.  `status` is the string `"Active"` or `"Inactive"`,
kept as text exactly as in the TypeScript union type. -/
structure Patient where
  id : Str
  name : Str
  age : Str
  gender : Str
  chief_complaint : Str
  vital_signs : Str
  medical_history : Str
  current_medications : Str
  allergies : Str
  lab_results : Str
  photo : Option Str
  status : Str
deriving DecidableEq

/-- `Message.type` in the chat page: `'user' | 'assistant' | 'error'`. -/
inductive MessageType where
  | user
  | assistant
  | error
deriving DecidableEq

/-- A chat transcript entry. -/
structure ChatMessage where
  type : MessageType
  content : Str
deriving DecidableEq

/-- The three doctor-notes fields. -/
structure DoctorNotes where
  physicalExam : Str
  clinicalNotes : Str
  potentialDiagnosis : Str
deriving DecidableEq

/-- The `ClinicalAssistant` component state touched by the chat flow. -/
structure ChatState where
  messages : List ChatMessage
  input : Str
  patientData : Patient
  clinicalFindings : List Str
  isLoading : Bool
  conversationId : Str
  symptoms : List Str
  patientSummary : Str
  doctorNotes : DoctorNotes
deriving DecidableEq

/-! ### Patient selection effect (`useEffect` on `selectedPatient`) -/

/-- Outcome of the `GET /patient-summary/{id}` fetch chained to a selection. -/
inductive SummaryFetch where
  | ok (summary : Str)
  | failed
deriving DecidableEq

/-- The greeting template
`` `I'm ready to discuss patient ${selectedPatient.name}. What would you like to know?` ``. -/
def greetingFor (p : Patient) : Str :=
  str "I'm ready to discuss patient " ++ p.name ++ str ". What would you like to know?"

/-- The regenerated conversation identifier
`` `clinic_${selectedPatient.id}_${Date.now()}` ``. -/
def conversationIdFor (p : Patient) (now : Nat) : Str :=
  str "clinic_" ++ p.id ++ str "_" ++ natStr now

/-- The selection effect: clear the transcript, regenerate the conversation
id, install the patient; then, only in the `.then` branch of the summary
fetch, store the summary and show the single greeting.  The `.catch` branch
only logs, leaving the cleared transcript in place. -/
def selectPatientEffect (p : Patient) (now : Nat) (outcome : SummaryFetch)
    (st : ChatState) : ChatState :=
  let st1 := { st with
    messages := []
    conversationId := conversationIdFor p now
    patientData := p }
  match outcome with
  | .ok summary =>
    { st1 with
      patientSummary := summary
      messages := [(⟨.assistant, greetingFor p⟩ : ChatMessage)] }
  | .failed => st1

/-! ### Chat submission (`handleSubmit`, `app/page.tsx`) -/

/-- Outcome of the single `POST /ask` fetch: a network rejection, or a
response with an HTTP status and (for the happy path) the `answer` field. -/
inductive AskOutcome where
  | reject
  | response (status : Nat) (answer : Str)
deriving DecidableEq

/-- `Response.ok`: status in the 2xx range. -/
def statusOk (status : Nat) : Bool := decide (200 ≤ status) && decide (status < 300)

/-- The generic chat error text. -/
def askErrorText : Str := str "Sorry, there was an error processing your request."

/-- `x || ""` on a JS string (identity: an empty string is already falsy). -/
def orEmpty (s : Str) : Str := if s.isEmpty then [] else s

/-- The `/ask` request body assembled by `handleSubmit`. -/
structure AskPayload where
  question : Str
  patient_age : Str
  patient_gender : Str
  patient_chief_complaint : Str
  patient_vital_signs : Str
  patient_medical_history : Str
  patient_current_medications : Str
  patient_allergies : Str
  patient_lab_results : Str
  clinical_findings : List Str
  symptoms : List Str
  conversation_id : Str
  doctor_notes : DoctorNotes
deriving DecidableEq

/-- Payload construction from the component state. -/
def mkAskPayload (st : ChatState) : AskPayload where
  question := st.input
  patient_age := orEmpty st.patientData.age
  patient_gender := orEmpty st.patientData.gender
  patient_chief_complaint := orEmpty st.patientData.chief_complaint
  patient_vital_signs := orEmpty st.patientData.vital_signs
  patient_medical_history := orEmpty st.patientData.medical_history
  patient_current_medications := orEmpty st.patientData.current_medications
  patient_allergies := orEmpty st.patientData.allergies
  patient_lab_results := orEmpty st.patientData.lab_results
  clinical_findings := st.clinicalFindings
  symptoms := st.symptoms
  conversation_id := st.conversationId
  doctor_notes := st.doctorNotes

/-- `handleSubmit`: guard on blank input, optimistic user message, one fetch,
then either the assistant answer (2xx) or the generic error message; finally
`isLoading` is cleared and the input box emptied.  The second component is
the request that was issued, `none` when the guard returned early. -/
def handleSubmit (st : ChatState) (outcome : AskOutcome) : ChatState × Option AskPayload :=
  if (jsTrim st.input).isEmpty then (st, none)
  else
    let afterUser := { st with
      isLoading := true
      messages := st.messages ++ [(⟨.user, st.input⟩ : ChatMessage)] }
    let afterResponse :=
      match outcome with
      | .response status answer =>
        if statusOk status then
          { afterUser with messages := afterUser.messages ++ [(⟨.assistant, answer⟩ : ChatMessage)] }
        else
          { afterUser with messages := afterUser.messages ++ [(⟨.error, askErrorText⟩ : ChatMessage)] }
      | .reject =>
        { afterUser with messages := afterUser.messages ++ [(⟨.error, askErrorText⟩ : ChatMessage)] }
    ({ afterResponse with isLoading := false, input := [] }, some (mkAskPayload st))

/-! ### The chat input row (`onKeyPress` / send button) -/

/-- A user interaction with the chat input row. -/
inductive ChatUiEvent where
  | clickSend
  | keyPress (key : Str)
deriving DecidableEq

/-- Whether the interaction reaches `handleSubmit`: the send button carries
`disabled={isLoading}`, while the input field's handler
`onKeyPress={(e) => e.key === 'Enter' && handleSubmit()}` has no busy-flag
guard. -/
def submitFires (ev : ChatUiEvent) (isLoading : Bool) : Bool :=
  match ev with
  | .clickSend => !isLoading
  | .keyPress key => decide (key = str "Enter")

/-- Whether the interaction actually launches a `POST /ask` request. -/
def uiEventLaunchesAsk (ev : ChatUiEvent) (st : ChatState) (outcome : AskOutcome) : Bool :=
  submitFires ev st.isLoading && ((handleSubmit st outcome).2).isSome

/-! ### Patient directory filter (`PatientSelector`, `app/page.tsx`) -/

/-- `filteredPatients`: case-insensitive containment of the search term in
name, id or chief complaint, conjoined with the status filter
(`statusFilter === 'all' || patient.status === statusFilter`). -/
def filteredPatients (patients : List Patient) (searchTerm : Str) (statusFilter : Str) :
    List Patient :=
  patients.filter fun patient =>
    (listIncludes (jsToLower searchTerm) (jsToLower patient.name)
      || listIncludes (jsToLower searchTerm) (jsToLower patient.id)
      || listIncludes (jsToLower searchTerm) (jsToLower patient.chief_complaint))
    && (decide (statusFilter = str "all") || decide (patient.status = statusFilter))

/-! ### Literature research panel (`MedicalResearch`) -/

/-- A scholarly search result entry (display-only). -/
structure ResearchPaper where
  title : Str
  link : Str
  authors : Str
  snippet : Str
  citations : Str
deriving DecidableEq

/-- The query parameters of the `GET /search-scholar` request. -/
structure ScholarRequest where
  query : Str
  start : Nat
deriving DecidableEq

/-- `handleSearch(page)`: guard on a blank query, then issue the request with
`start = page * 10` (the query string itself is passed through
`encodeURIComponent`, which does not affect the `start` parameter). -/
def handleSearchRequest (searchQuery : Str) (page : Nat) : Option ScholarRequest :=
  if (jsTrim searchQuery).isEmpty then none
  else some ⟨searchQuery, page * 10⟩

/-- The `disabled` expression of the "Next" pagination button:
`searchResults.papers.length < 10 || isSearching`. -/
def nextDisabled (papers : List ResearchPaper) (isSearching : Bool) : Bool :=
  decide (papers.length < 10) || isSearching

/-- `chatMessages` roles in the research chat: `'user' | 'assistant'` only. -/
inductive ResearchRole where
  | user
  | assistant
deriving DecidableEq

/-- A research-chat transcript entry. -/
structure ResearchMessage where
  role : ResearchRole
  content : Str
deriving DecidableEq

/-- Outcome of the single `POST /research-chat` fetch. -/
inductive ResearchChatOutcome where
  | reject
  | response (status : Nat) (body : Str)
deriving DecidableEq

/-- The fixed apology appended by the research chat's `catch` branch. -/
def apologyText : Str := str "I apologize, but I encountered an error. Please try again."

/-- `handleChat`: guard on blank input or the busy flag, optimistic user
message with the trimmed input, then either the response body (2xx) or the
fixed apology — both appended with role `'assistant'`. -/
def handleChat (chatMessages : List ResearchMessage) (chatInput : Str)
    (isChatLoading : Bool) (outcome : ResearchChatOutcome) : List ResearchMessage :=
  if (jsTrim chatInput).isEmpty || isChatLoading then chatMessages
  else
    let withUser := chatMessages ++ [(⟨.user, jsTrim chatInput⟩ : ResearchMessage)]
    match outcome with
    | .response status body =>
      if statusOk status then withUser ++ [(⟨.assistant, body⟩ : ResearchMessage)]
      else withUser ++ [(⟨.assistant, apologyText⟩ : ResearchMessage)]
    | .reject => withUser ++ [(⟨.assistant, apologyText⟩ : ResearchMessage)]

/-! ### Patient service (`services/patientService.ts`) -/

/-- The settled state of one browser `fetch`: a response with an HTTP status
and parsed body, or a rejection carrying the error's `name` and `message`. -/
inductive FetchEvent (β : Type) where
  | resolve (status : Nat) (body : β)
  | reject (errName : Str) (errMsg : Str)
deriving DecidableEq

/-- The `fetchWithTimeout` timer value (`const timeout = 5000`). -/
def timeoutMs : Nat := 5000

/-- The `name` of the error produced by `AbortController.abort()`. -/
def abortErrorName : Str := str "AbortError"

/-- `fetchWithTimeout`: a 5000 ms timer aborts the controller, turning the
fetch into an `AbortError` rejection whenever the response takes at least
`timeoutMs` milliseconds; otherwise the underlying event passes through. -/
def fetchWithTimeout (elapsedMs : Nat) (ev : FetchEvent β) : FetchEvent β :=
  if timeoutMs ≤ elapsedMs then
    .reject abortErrorName (str "The operation was aborted.")
  else ev

/-- `getAllPatients`: the only call routed through `fetchWithTimeout`;
non-2xx becomes `'Failed to fetch patients'`, an `AbortError` becomes
`'Request timed out'`, any other rejection is rethrown as-is. -/
def getAllPatients (elapsedMs : Nat) (ev : FetchEvent (List Patient)) :
    Except Str (List Patient) :=
  match fetchWithTimeout elapsedMs ev with
  | .resolve status body =>
    if statusOk status then .ok body else .error (str "Failed to fetch patients")
  | .reject errName errMsg =>
    if errName = abortErrorName then .error (str "Request timed out") else .error errMsg

/-- `getPatientById`: a direct `fetch` with no timeout; non-2xx becomes
`'Failed to fetch patient'`, rejections are rethrown as-is. -/
def getPatientById (_id : Str) (ev : FetchEvent Patient) : Except Str Patient :=
  match ev with
  | .resolve status body =>
    if statusOk status then .ok body else .error (str "Failed to fetch patient")
  | .reject _ errMsg => .error errMsg

/-- `updatePatient`: a direct `PUT` with no timeout; non-2xx becomes
`'Failed to update patient'`, rejections are rethrown as-is. -/
def updatePatient (_id : Str) (ev : FetchEvent Patient) : Except Str Patient :=
  match ev with
  | .resolve status body =>
    if statusOk status then .ok body else .error (str "Failed to update patient")
  | .reject _ errMsg => .error errMsg

/-- `addPatient`: a direct `POST` with no timeout; non-2xx becomes
`'Failed to add patient'`, rejections are rethrown as-is. -/
def addPatient (ev : FetchEvent Patient) : Except Str Patient :=
  match ev with
  | .resolve status body =>
    if statusOk status then .ok body else .error (str "Failed to add patient")
  | .reject _ errMsg => .error errMsg

/-! ### Concrete fixtures for witnesses and counterexamples -/

/-- A concrete patient used in closed statements. -/
def samplePatient : Patient where
  id := str "p1"
  name := str "Alice"
  age := str "30"
  gender := str "F"
  chief_complaint := str "cough"
  vital_signs := str ""
  medical_history := str ""
  current_medications := str ""
  allergies := str ""
  lab_results := str ""
  photo := none
  status := str "Active"

/-- A concrete component state used in closed statements. -/
def someChatState : ChatState where
  messages := []
  input := []
  patientData := samplePatient
  clinicalFindings := []
  isLoading := false
  conversationId := []
  symptoms := []
  patientSummary := []
  doctorNotes := ⟨[], [], []⟩

/-- The component state while a `/ask` request is in flight. -/
def busyChatState : ChatState :=
  { someChatState with isLoading := true, input := str "hi" }

/-- A concrete idle state with a non-blank question typed. -/
def filledChatState : ChatState :=
  { someChatState with input := str "hi" }

/-- A concrete state whose question is whitespace only. -/
def blankInputState : ChatState :=
  { someChatState with input := str "   " }

/-- `m.type === 'error'`. -/
def isErrorMsg (m : ChatMessage) : Bool :=
  match m.type with
  | .error => true
  | _ => false

/-- `m.type === 'assistant'`. -/
def isAssistantMsg (m : ChatMessage) : Bool :=
  match m.type with
  | .assistant => true
  | _ => false

/-- `(handleSubmit st outcome).2` is issued exactly when the input is not blank. -/
theorem handleSubmit_issues (st : ChatState) (outcome : AskOutcome) :
    ((handleSubmit st outcome).2).isSome = !(jsTrim st.input).isEmpty := by
  unfold handleSubmit
  by_cases hb : (jsTrim st.input).isEmpty
  · simp [hb]
  · simp [hb]

/-! ## Claims -/

/-- Claim C1, counterexample to the claim as stated: in the prediction text
`"diagnosis:\n..."`, the line `...` is non-empty, is not a header, and
follows the recognized header `diagnosis:`, yet `formatPredictionSection`
places it in no bucket — the filter `^[.:,\s]+$` silently drops
punctuation-only lines instead of bucketing every non-empty non-header
line. -/
theorem C1_counterexample :
    lineHeader? (str "diagnosis:") = some .diagnoses
    ∧ lineHeader? (str "...") = none
    ∧ (jsToLower (jsTrim (str "..."))).isEmpty = false
    ∧ splitLines (str "diagnosis:\n...") = [str "diagnosis:", str "..."]
    ∧ formatPredictionSection (str "diagnosis:\n...") = ⟨[], [], [], []⟩ := by
  refine ⟨?_, ?_, ?_, ?_, ?_⟩ <;> decide

/-- Claim C1 (amended): for every prediction text and every bucket, the
bucket produced by `formatPredictionSection` consists exactly of the
entries of the non-empty non-header lines whose most recently seen header
(`lastHeaderFrom none` over the preceding lines) selects that bucket, each
entry being the line's trimmed lowercased form stripped of its list marker
(`cleanEntry`) — except that lines whose stripped form is empty or consists
only of periods, colons, commas and whitespace are dropped (`entry?`); in
particular every line preceding the first recognized header contributes to
no bucket. -/
theorem C1_bucket_spec (text : Str) (k : SectionKind) :
    getBucket k (formatPredictionSection text) = specBucket none k (splitLines text) :=
  formatPrediction_buckets text k

/-- Claim C2, counterexample to the claim as stated: when the follow-up
patient-summary fetch fails, selecting a patient leaves the transcript
empty — no assistant greeting is shown, so the transcript is not reset to
exactly one greeting "on every selection". -/
theorem C2_counterexample :
    (selectPatientEffect samplePatient 0 .failed someChatState).messages = []
    ∧ ((selectPatientEffect samplePatient 0 .failed someChatState).messages).length = 0 := by
  exact ⟨rfl, rfl⟩

/-- Claim C2 (amended): selecting a patient always clears the transcript
and sets a conversation identifier containing the patient's id; when the
patient-summary fetch succeeds the transcript becomes exactly one
assistant-typed greeting whose content contains the patient's name, but
when the fetch fails the transcript remains empty. -/
theorem C2_selection_spec (p : Patient) (now : Nat) (outcome : SummaryFetch)
    (st : ChatState) :
    p.id <:+: (selectPatientEffect p now outcome st).conversationId
    ∧ (outcome = .failed → (selectPatientEffect p now outcome st).messages = [])
    ∧ (∀ s, outcome = .ok s →
        (selectPatientEffect p now outcome st).messages
          = [(⟨.assistant, greetingFor p⟩ : ChatMessage)]
        ∧ p.name <:+: greetingFor p) := by
  refine ⟨?_, ?_, ?_⟩
  · have hid : (selectPatientEffect p now outcome st).conversationId
        = conversationIdFor p now := by
      cases outcome <;> rfl
    rw [hid]
    exact ⟨str "clinic_", str "_" ++ natStr now, by simp [conversationIdFor]⟩
  · rintro rfl
    rfl
  · rintro s rfl
    exact ⟨rfl, str "I'm ready to discuss patient ",
      str ". What would you like to know?", by simp [greetingFor]⟩

/-- Witness for C2's theorem at a concrete selection. -/
theorem C2_selection_spec_witness :
    samplePatient.id <:+:
      (selectPatientEffect samplePatient 0 (.ok (str "fine")) someChatState).conversationId
    ∧ (selectPatientEffect samplePatient 0 (.ok (str "fine")) someChatState).messages
        = [(⟨.assistant, greetingFor samplePatient⟩ : ChatMessage)] :=
  ⟨(C2_selection_spec samplePatient 0 (.ok (str "fine")) someChatState).1,
   ((C2_selection_spec samplePatient 0 (.ok (str "fine")) someChatState).2.2
      (str "fine") rfl).1⟩

/-- Claim C3, counterexample to the claim as stated: with a `/ask` request
in flight (`isLoading = true`) and a non-blank input, pressing Enter in the
chat input still launches a second `/ask` request — the `onKeyPress`
handler calls `handleSubmit` without consulting the busy flag, and
`handleSubmit` itself only rejects blank input. -/
theorem C3_counterexample :
    busyChatState.isLoading = true
    ∧ uiEventLaunchesAsk (.keyPress (str "Enter")) busyChatState .reject = true := by
  exact ⟨rfl, by decide⟩

/-- Claim C3 (amended): while a `/ask` request is awaiting its response,
submission via the Send button is blocked (the button is rendered with
`disabled={isLoading}`), but submission via the Enter key is not guarded by
the busy flag: it launches a further `/ask` request whenever the input is
non-blank, so the chat flow can have more than one `/ask` request in
flight. -/
theorem C3_busy_submission (st : ChatState) (outcome : AskOutcome)
    (h : st.isLoading = true) :
    uiEventLaunchesAsk .clickSend st outcome = false
    ∧ ∀ key, uiEventLaunchesAsk (.keyPress key) st outcome
        = (decide (key = str "Enter") && !(jsTrim st.input).isEmpty) := by
  constructor
  · unfold uiEventLaunchesAsk submitFires
    rw [h]
    rfl
  · intro key
    unfold uiEventLaunchesAsk submitFires
    rw [handleSubmit_issues]

/-- Witness for C3's theorem at a concrete busy state. -/
theorem C3_busy_submission_witness :
    uiEventLaunchesAsk .clickSend busyChatState .reject = false
    ∧ uiEventLaunchesAsk (.keyPress (str "Enter")) busyChatState .reject
        = (decide ((str "Enter") = str "Enter") && !(jsTrim busyChatState.input).isEmpty) :=
  ⟨(C3_busy_submission busyChatState .reject rfl).1,
   (C3_busy_submission busyChatState .reject rfl).2 (str "Enter")⟩

/-- Claim C4: for every chat submission whose `/ask` fetch fails (network
rejection or non-2xx status), exactly one error-typed message and no
assistant-typed message is appended for that submission (after the
optimistic user echo). -/
theorem C4_handleSubmit_failure (st : ChatState) (outcome : AskOutcome)
    (hin : (jsTrim st.input).isEmpty = false)
    (hfail : outcome = .reject
      ∨ ∃ status answer, outcome = .response status answer ∧ statusOk status = false) :
    ((handleSubmit st outcome).1).messages
      = st.messages
        ++ [(⟨.user, st.input⟩ : ChatMessage), (⟨.error, askErrorText⟩ : ChatMessage)]
    ∧ (((handleSubmit st outcome).1).messages.drop st.messages.length).countP isErrorMsg = 1
    ∧ (((handleSubmit st outcome).1).messages.drop st.messages.length).countP
        isAssistantMsg = 0 := by
  have hmsgs : ((handleSubmit st outcome).1).messages
      = st.messages
        ++ [(⟨.user, st.input⟩ : ChatMessage), (⟨.error, askErrorText⟩ : ChatMessage)] := by
    rcases hfail with rfl | ⟨status, answer, rfl, hs⟩
    · unfold handleSubmit
      simp [hin]
    · unfold handleSubmit
      simp [hin, hs]
  refine ⟨hmsgs, ?_, ?_⟩ <;>
    rw [hmsgs, List.drop_left] <;>
    simp [List.countP_cons, isErrorMsg, isAssistantMsg]

/-- Witness for C4's theorem at a concrete failing submission. -/
theorem C4_handleSubmit_failure_witness :
    (jsTrim filledChatState.input).isEmpty = false
    ∧ ((handleSubmit filledChatState .reject).1).messages
        = filledChatState.messages
          ++ [(⟨.user, filledChatState.input⟩ : ChatMessage),
              (⟨.error, askErrorText⟩ : ChatMessage)] :=
  ⟨by decide,
   (C4_handleSubmit_failure filledChatState .reject (by decide) (Or.inl rfl)).1⟩

/-- Claim C5: the filtered roster contains exactly the patients whose name,
id or chief complaint case-insensitively contains the search term and whose
status equals the filter (all statuses admitted when the filter is
`"all"`). -/
theorem C5_filteredPatients_spec (patients : List Patient)
    (searchTerm statusFilter : Str) (p : Patient) :
    p ∈ filteredPatients patients searchTerm statusFilter ↔
      p ∈ patients
      ∧ (jsToLower searchTerm <:+: jsToLower p.name
         ∨ jsToLower searchTerm <:+: jsToLower p.id
         ∨ jsToLower searchTerm <:+: jsToLower p.chief_complaint)
      ∧ (statusFilter = str "all" ∨ p.status = statusFilter) := by
  unfold filteredPatients
  rw [List.mem_filter]
  simp [Bool.and_eq_true, Bool.or_eq_true, listIncludes_iff, or_assoc]

/-- Claim C6: requesting page `N` of the scholar search issues
`start = N * 10` (with a fixed page size of 10), and the "Next" control is
disabled whenever the current page holds fewer than 10 papers. -/
theorem C6_scholar_pagination (searchQuery : Str) (page : Nat)
    (papers : List ResearchPaper) (isSearching : Bool) :
    ((jsTrim searchQuery).isEmpty = false →
      handleSearchRequest searchQuery page = some ⟨searchQuery, page * 10⟩)
    ∧ (papers.length < 10 → nextDisabled papers isSearching = true) := by
  constructor
  · intro h
    unfold handleSearchRequest
    simp [h]
  · intro h
    unfold nextDisabled
    simp [h]

/-- Witness for C6's theorem at a concrete query and page. -/
theorem C6_scholar_pagination_witness :
    (jsTrim (str "cancer")).isEmpty = false
    ∧ handleSearchRequest (str "cancer") 3 = some ⟨str "cancer", 30⟩
    ∧ ([] : List ResearchPaper).length < 10
    ∧ nextDisabled [] true = true :=
  ⟨by decide,
   (C6_scholar_pagination (str "cancer") 3 [] true).1 (by decide),
   by decide,
   (C6_scholar_pagination (str "cancer") 3 [] true).2 (by decide)⟩

/-- Claim C7: only `getAllPatients` is routed through the 5-second
`fetchWithTimeout`; an elapsed time of at least 5000 ms surfaces exactly
`'Request timed out'`, while below the timeout the wrapper passes the fetch
through untouched.  `getPatientById`, `updatePatient` and `addPatient` are
direct calls: rejections (even `AbortError`s) surface their original
message.  Every call maps a non-2xx response to its fixed human-readable
error message, and each call's result is a function of its single fetch
event (no retry). -/
theorem C7_patientService_spec (elapsedMs : Nat) (ev : FetchEvent (List Patient))
    (id : Str) (status : Nat) (pbody : Patient) (plist : List Patient)
    (errName errMsg : Str) :
    (timeoutMs ≤ elapsedMs →
      getAllPatients elapsedMs ev = .error (str "Request timed out"))
    ∧ (elapsedMs < timeoutMs → fetchWithTimeout elapsedMs ev = ev)
    ∧ (elapsedMs < timeoutMs → statusOk status = false →
        getAllPatients elapsedMs (.resolve status plist)
          = .error (str "Failed to fetch patients"))
    ∧ (statusOk status = false →
        getPatientById id (.resolve status pbody) = .error (str "Failed to fetch patient"))
    ∧ (statusOk status = false →
        updatePatient id (.resolve status pbody) = .error (str "Failed to update patient"))
    ∧ (statusOk status = false →
        addPatient (.resolve status pbody) = .error (str "Failed to add patient"))
    ∧ getPatientById id (.reject errName errMsg) = .error errMsg
    ∧ updatePatient id (.reject errName errMsg) = .error errMsg
    ∧ addPatient (.reject errName errMsg) = .error errMsg := by
  refine ⟨?_, ?_, ?_, ?_, ?_, ?_, rfl, rfl, rfl⟩
  · intro h
    unfold getAllPatients fetchWithTimeout
    simp [h]
  · intro h
    unfold fetchWithTimeout
    rw [if_neg (by omega)]
  · intro h hs
    unfold getAllPatients fetchWithTimeout
    rw [if_neg (by omega)]
    simp [hs]
  · intro hs
    unfold getPatientById
    simp [hs]
  · intro hs
    unfold updatePatient
    simp [hs]
  · intro hs
    unfold addPatient
    simp [hs]

/-- Witness for C7's theorem: the timeout branch at 6000 ms, the
pass-through branch at 0 ms, and the non-2xx branches at status 500. -/
theorem C7_patientService_spec_witness :
    timeoutMs ≤ 6000
    ∧ getAllPatients 6000 (.reject (str "TypeError") (str "Failed to fetch"))
        = .error (str "Request timed out")
    ∧ (0 < timeoutMs)
    ∧ statusOk 500 = false
    ∧ getAllPatients 0 (.resolve 500 []) = .error (str "Failed to fetch patients")
    ∧ getPatientById (str "p1") (.resolve 500 samplePatient)
        = .error (str "Failed to fetch patient")
    ∧ updatePatient (str "p1") (.resolve 500 samplePatient)
        = .error (str "Failed to update patient")
    ∧ addPatient (.resolve 500 samplePatient) = .error (str "Failed to add patient") :=
  ⟨by decide,
   (C7_patientService_spec 6000 (.reject (str "TypeError") (str "Failed to fetch"))
      (str "p1") 500 samplePatient [] (str "x") (str "y")).1 (by decide),
   by decide,
   by decide,
   (C7_patientService_spec 0 (.reject (str "TypeError") (str "Failed to fetch"))
      (str "p1") 500 samplePatient [] (str "x") (str "y")).2.2.1 (by decide) (by decide),
   (C7_patientService_spec 0 (.reject (str "TypeError") (str "Failed to fetch"))
      (str "p1") 500 samplePatient [] (str "x") (str "y")).2.2.2.1 (by decide),
   (C7_patientService_spec 0 (.reject (str "TypeError") (str "Failed to fetch"))
      (str "p1") 500 samplePatient [] (str "x") (str "y")).2.2.2.2.1 (by decide),
   (C7_patientService_spec 0 (.reject (str "TypeError") (str "Failed to fetch"))
      (str "p1") 500 samplePatient [] (str "x") (str "y")).2.2.2.2.2.1 (by decide)⟩

/-- Claim C8: submitting an empty or whitespace-only question performs no
network call and leaves the whole component state unchanged. -/
theorem C8_blank_submit (st : ChatState) (outcome : AskOutcome)
    (h : (jsTrim st.input).isEmpty = true) :
    handleSubmit st outcome = (st, none) := by
  unfold handleSubmit
  rw [if_pos h]

/-- Witness for C8's theorem at a whitespace-only input. -/
theorem C8_blank_submit_witness :
    (jsTrim blankInputState.input).isEmpty = true
    ∧ handleSubmit blankInputState .reject = (blankInputState, none) :=
  ⟨by decide, C8_blank_submit blankInputState .reject (by decide)⟩

/-- Claim C9, counterexample to the claim as stated: for the prediction
text `"Diagnosis\n- Flu"`, the diagnoses bucket holds `"flu"`, which is not
the lowercased form of either trimmed input line (`"diagnosis"` and
`"- flu"`) — the pushed value is the lowercased trimmed line *after* list
markers are stripped. -/
theorem C9_counterexample :
    getBucket .diagnoses (formatPredictionSection (str "Diagnosis\n- Flu")) = [str "flu"]
    ∧ splitLines (str "Diagnosis\n- Flu") = [str "Diagnosis", str "- Flu"]
    ∧ jsToLower (jsTrim (str "- Flu")) = str "- flu"
    ∧ jsToLower (jsTrim (str "Diagnosis")) = str "diagnosis"
    ∧ str "flu" ≠ str "- flu"
    ∧ str "flu" ≠ str "diagnosis" := by
  refine ⟨?_, ?_, ?_, ?_, ?_, ?_⟩ <;> decide

/-- Claim C9 (amended): every string placed into any bucket by the
first-variant `formatPredictionSection` is the marker-stripped form of the
lowercased trimmed input line it comes from (`cleanEntry` applied to
`line.trim().toLowerCase()`), so no bucket entry ever contains an uppercase
ASCII character and the original casing of the prediction text is not
preserved. -/
theorem C9_bucket_entries_lowercase (text : Str) (k : SectionKind) (e : Str)
    (he : e ∈ getBucket k (formatPredictionSection text)) :
    (∃ l ∈ splitLines text, e = cleanEntry (jsToLower (jsTrim l)))
    ∧ noUpper e = true := by
  obtain ⟨l, hl, hc⟩ := bucket_entry_of_line he
  have he' : e = cleanEntry (jsToLower (jsTrim l)) := by
    unfold contentEntry? at hc
    cases hh : lineHeader? l with
    | some k' => rw [hh] at hc; exact absurd hc (by simp)
    | none =>
      rw [hh] at hc
      by_cases ht : (jsToLower (jsTrim l)).isEmpty
      · rw [if_pos ht] at hc; exact absurd hc (by simp)
      · rw [if_neg ht] at hc
        exact (entry?_eq_some hc)
  refine ⟨⟨l, hl, he'⟩, ?_⟩
  unfold noUpper
  rw [List.all_eq_true]
  intro a ha
  have hmem : a ∈ jsToLower (jsTrim l) := mem_cleanEntry (he' ▸ ha)
  simp [noUpper_jsToLower _ hmem]

/-- Witness for C9's theorem at a concrete bucket entry. -/
theorem C9_bucket_entries_lowercase_witness :
    str "flu" ∈ getBucket .diagnoses (formatPredictionSection (str "Diagnosis\n- Flu"))
    ∧ noUpper (str "flu") = true :=
  ⟨by decide,
   (C9_bucket_entries_lowercase (str "Diagnosis\n- Flu") .diagnoses (str "flu")
      (by decide)).2⟩

/-- Claim C10: a failed research-chat request (network rejection or non-2xx
status) appends exactly one message, whose role is `'assistant'` and whose
content is the fixed apology; the research-chat role type admits only
`'user'` and `'assistant'`, so a failure is never represented by an
error-typed message. -/
theorem C10_researchChat_failure (chatMessages : List ResearchMessage)
    (chatInput : Str) (outcome : ResearchChatOutcome)
    (hin : (jsTrim chatInput).isEmpty = false)
    (hfail : outcome = .reject
      ∨ ∃ status body, outcome = .response status body ∧ statusOk status = false) :
    handleChat chatMessages chatInput false outcome
      = chatMessages
        ++ [(⟨.user, jsTrim chatInput⟩ : ResearchMessage),
            (⟨.assistant, apologyText⟩ : ResearchMessage)]
    ∧ (∀ r : ResearchRole, r = .user ∨ r = .assistant) := by
  constructor
  · rcases hfail with rfl | ⟨status, body, rfl, hs⟩
    · unfold handleChat
      simp [hin]
    · unfold handleChat
      simp [hin, hs]
  · intro r
    cases r
    · exact Or.inl rfl
    · exact Or.inr rfl

/-- Witness for C10's theorem at a concrete failing request. -/
theorem C10_researchChat_failure_witness :
    (jsTrim (str "hi")).isEmpty = false
    ∧ handleChat [] (str "hi") false .reject
        = [(⟨.user, jsTrim (str "hi")⟩ : ResearchMessage),
           (⟨.assistant, apologyText⟩ : ResearchMessage)] :=
  ⟨by decide,
   by simpa using (C10_researchChat_failure [] (str "hi") .reject (by decide) (Or.inl rfl)).1⟩

end MedAssist
